import Mathlib

set_option maxRecDepth 8000

/-!
# A verification development of the demand-forecast server core

This file gives a shallow embedding, in Lean 4, of the core logic of
`flask-server/app.py` from the Demand_forecast repository:

* the static city→state map and the geography resolver
  (`CITY_TO_STATE_MAP`, `get_state_from_city`);
* the feature-vector builder (`create_feature_vector`);
* the inference orchestrator (the prediction loop of the `POST` branch of
  `project_management`, modelled as `scoreAll`);
* the proposal lifecycle operations of `project_management`:
  listing (`GET`, modelled as `get_projects`), status transition
  (`PUT`, modelled as `put_project_status`) and creation
  (`POST`, modelled as `post_project`).

Conventions of the embedding:

* Python scalars that may arrive from JSON are modelled by `JVal`
  (null, string, or an integral number); Python truthiness by `JVal.truthy`.
* Python `float(...)` applied to a string is modelled by `pyFloat`, a
  parser for optionally signed decimal literals with an optional fractional
  part and decimal exponent, with surrounding whitespace stripped.  The
  special spellings `inf`/`nan` and underscore digit separators are outside
  the model.  Numeric values are modelled by `Rat` (the claims under study
  never depend on binary floating-point rounding).
* The SQLAlchemy stores are modelled by in-memory lists (`DB`); a
  `filter_by(...).first()` is `List.find?`, a `filter(...)` is
  `List.filter`, a SQL `UNION` of two filters over one table is the filter
  of the disjunction (each row occurs once in the table), and
  `order_by(col.desc())` is a sort by the (string) column in descending
  order.  Database commits are assumed to succeed; `SQLAlchemyError`
  branches are outside the model.
* HTTP outcomes are modelled by `ApiErr` (for the error responses, keyed
  by status code and site) or a successful value.
-/

/-- A JSON scalar as received by the Flask handlers: `null`, a string, or a
number.  JSON numbers are modelled as integers (`Int`), which covers the
numeric payloads the frontend sends; `str()` of such a number is its decimal
rendering, exactly as in Python. -/
inductive JVal where
  | jnull
  | jstr (s : String)
  | jnum (n : Int)
deriving DecidableEq, Repr

/-- Python truthiness of a `JVal`: `None` and `0` and `""` are falsy. -/
def JVal.truthy : JVal → Bool
  | .jnull => false
  | .jstr s => s ≠ ""
  | .jnum n => n ≠ 0

/-- Python `str()` of a `JVal`. -/
def JVal.pyStr : JVal → String
  | .jnull => "None"
  | .jstr s => s
  | .jnum n => toString n

/-- Strip leading and trailing whitespace from a character list (the model
of Python's stripping of a string passed to `float()`). -/
def pyStrip (cs : List Char) : List Char :=
  ((cs.dropWhile Char.isWhitespace).reverse.dropWhile Char.isWhitespace).reverse

/-- One pass of Python `str.replace(old, new)`: scan left to right, replace
non-overlapping occurrences of `old` by `new`.  `fuel` bounds the number of
steps (the caller passes the list length; every step consumes at least one
character since the patterns used are nonempty). -/
def replaceListAux (old new : List Char) : Nat → List Char → List Char
  | 0, cs => cs
  | fuel + 1, cs =>
      match cs with
      | [] => []
      | c :: rest =>
        if old.isPrefixOf cs then new ++ replaceListAux old new fuel (cs.drop old.length)
        else c :: replaceListAux old new fuel rest

/-- Python `s.replace(old, new)`. -/
def pyReplace (s old new : String) : String :=
  ⟨replaceListAux old.toList new.toList s.toList.length s.toList⟩

/-- Digits of a numeral, most significant first, folded to a `Nat`. -/
def digitsToNat (cs : List Char) : Nat :=
  cs.foldl (fun acc c => 10 * acc + (c.toNat - '0'.toNat)) 0

/-- The signed decimal exponent of a float literal, given its sign and digit
list; `none` when the digit list is empty or holds a non-digit. -/
def pyExpDigits (neg : Bool) (ds : List Char) : Option Int :=
  if ds ≠ [] ∧ ds.all Char.isDigit then
    some (if neg then -(Int.ofNat (digitsToNat ds)) else Int.ofNat (digitsToNat ds))
  else none

/-- The optional exponent suffix of a Python float literal: empty means
exponent `0`; `e`/`E` followed by an optionally signed digit string gives the
signed exponent; anything else fails. -/
def pyExpPart : List Char → Option Int
  | [] => some 0
  | 'e' :: rest =>
      match rest with
      | '+' :: ds => pyExpDigits false ds
      | '-' :: ds => pyExpDigits true ds
      | ds => pyExpDigits false ds
  | 'E' :: rest =>
      match rest with
      | '+' :: ds => pyExpDigits false ds
      | '-' :: ds => pyExpDigits true ds
      | ds => pyExpDigits false ds
  | _ => none

/-- The exact rational value `mantissa / 10^fracLen * 10^exp` of a decimal
literal, assembled with a single normalizing constructor. -/
def ratOfParts (mantissa : Nat) (fracLen : Nat) (exp : Int) : Rat :=
  match exp with
  | .ofNat k => mkRat (Int.ofNat (mantissa * 10 ^ k)) (10 ^ fracLen)
  | .negSucc k => mkRat (Int.ofNat mantissa) (10 ^ fracLen * 10 ^ (k + 1))

/-- The unsigned body of a Python float literal: an integer part and/or a
fractional part (at least one digit between them), then an optional
exponent. -/
def pyFloatBody (cs : List Char) : Option Rat :=
  let intPart := cs.takeWhile Char.isDigit
  let rest := cs.dropWhile Char.isDigit
  match rest with
  | '.' :: rest2 =>
      let fracPart := rest2.takeWhile Char.isDigit
      let rest3 := rest2.dropWhile Char.isDigit
      if intPart = [] ∧ fracPart = [] then none
      else
        (pyExpPart rest3).map fun e =>
          ratOfParts (digitsToNat (intPart ++ fracPart)) fracPart.length e
  | _ =>
      if intPart = [] then none
      else (pyExpPart rest).map fun e => ratOfParts (digitsToNat intPart) 0 e

/-- Python `float(s)` for a string `s`, restricted to finite decimal
literals: surrounding whitespace is stripped, an optional sign precedes the
body.  Returns `none` exactly where Python raises `ValueError` (within the
modelled grammar). -/
def pyFloat (s : String) : Option Rat :=
  match pyStrip s.toList with
  | '+' :: rest => pyFloatBody rest
  | '-' :: rest => (pyFloatBody rest).map Rat.neg
  | cs => pyFloatBody cs

/-- `str(v).split(' ')[0]`: the first element of a split on single spaces is
the prefix of the string up to its first space (the whole string when it has
no space). -/
def leadingToken (s : String) : String :=
  ⟨s.toList.takeWhile (· ≠ ' ')⟩

/-! ## Geography: `CITY_TO_STATE_MAP` and `get_state_from_city` (app.py 42-68) -/

/-- The static city→state map, in the source's insertion order. -/
def CITY_TO_STATE_MAP : List (String × String) :=
  [("Lucknow", "Uttar Pradesh"),
   ("Kanpur", "Uttar Pradesh"),
   ("Meerut", "Uttar Pradesh"),
   ("Agra", "Uttar Pradesh"),
   ("Varanasi", "Uttar Pradesh"),
   ("Mumbai", "Maharashtra"),
   ("Pune", "Maharashtra"),
   ("Nagpur", "Maharashtra"),
   ("Bengaluru", "Karnataka"),
   ("Mysore", "Karnataka"),
   ("Chennai", "Tamil Nadu"),
   ("Coimbatore", "Tamil Nadu"),
   ("Kolkata", "West Bengal"),
   ("Siliguri", "West Bengal"),
   ("Jaipur", "Rajasthan"),
   ("Jodhpur", "Rajasthan"),
   ("Ahmedabad", "Gujarat"),
   ("Surat", "Gujarat"),
   ("Hyderabad", "Telangana"),
   ("Warangal", "Telangana"),
   ("Delhi", "Delhi")]

/-- `CITY_TO_STATE_MAP.get(city, "Unknown")`: the state of a city, with the
literal fallback `"Unknown"` for a city absent from the map. -/
def get_state_from_city (city : String) : String :=
  match CITY_TO_STATE_MAP.find? (fun kv => kv.1 = city) with
  | some kv => kv.2
  | none => "Unknown"

/-! ## Feature-vector builder: `create_feature_vector` (app.py 157-248) -/

/-- The raw `input_features` dictionary of a creation request.  The two
numeric fields may arrive as arbitrary JSON scalars (`JVal`); the four
categorical fields arrive from the frontend as strings.  A `none` field is
one absent from the dictionary. -/
structure InputData where
  towerType : Option JVal
  budget : Option JVal
  location : Option String
  substationType : Option String
  geo : Option String
  taxes : Option String
deriving DecidableEq, Repr

/-- Step 1 of `create_feature_vector` (app.py 178-186): the parsed voltage.
`if "towerType" in input_data and input_data["towerType"]:` guards on
presence and truthiness, then `float(str(v).split(' ')[0])` parses the
leading token; any failure raises, modelled by `none`. -/
def towerVal : Option JVal → Option Rat
  | some v => if v.truthy then pyFloat (leadingToken v.pyStr) else none
  | none => none

/-- Step 2 of `create_feature_vector` (app.py 189-198): the parsed budget.
The guard is `"budget" in input_data and input_data["budget"] is not None`,
then `float(...)` accepts a string (parsed) or a number (identity). -/
def budgetVal : Option JVal → Option Rat
  | some .jnull => none
  | some (.jstr s) => pyFloat s
  | some (.jnum n) => some (mkRat n 1)
  | none => none

/-- `budget_val / 1000000.0` (app.py 195), written with a single
normalizing constructor (same rational value). -/
def toMillions (b : Rat) : Rat := mkRat b.num (b.den * 1000000)

/-- The substation one-hot key (app.py 217-221):
`f"Substation_Type_ {raw}"` then
`.replace(" (", "_(").replace(" ", "_").replace("(", "_").replace(")", "")`. -/
def substationKey (raw : String) : String :=
  let k := "Substation_Type_ " ++ raw
  pyReplace (pyReplace (pyReplace (pyReplace k " (" "_(") " " "_") "(" "_") ")" ""

/-- Write `val` at `key` when `key` is a column of the schema (the dict
membership test `if key in feature_vector:`), else leave the vector map
unchanged. -/
def setIfMem (columns : List String) (fv : String → Rat) (key : String) (val : Rat) :
    String → Rat :=
  if key ∈ columns then Function.update fv key val else fv

/-- The sequence of (key, value) writes `create_feature_vector` attempts, in
source order, given the already-parsed numeric values: the numeric columns
(app.py 182-183, 193-195), then one one-hot write per categorical field that
is present in the input (app.py 208-245). -/
def fvWrites (input : InputData) (towerKv budget : Rat) : List (String × Rat) :=
  [("Voltage_kV", towerKv), ("Estimated_Cost_Million", toMillions budget)]
  ++ (match input.location with
      | some loc => [("Location_ " ++ loc, 1)] | none => [])
  ++ (match input.substationType with
      | some sub => [(substationKey sub, 1)] | none => [])
  ++ (match input.geo with
      | some g => [("Geographical_Zone_ " ++ g, 1)] | none => [])
  ++ (match input.taxes with
      | some t => [("Taxes_Applicable_" ++ t, 1)] | none => [])

/-- The finished feature-vector map of `create_feature_vector`: every column
starts at `0.0` (app.py 171), then the writes of `fvWrites` are applied in
order, each only when its key is present in the schema. -/
def fvFun (input : InputData) (columns : List String) (towerKv budget : Rat) :
    String → Rat :=
  (fvWrites input towerKv budget).foldl
    (fun fv kv => setIfMem columns fv kv.1 kv.2) (fun _ => 0)

/-- `create_feature_vector(input_data, columns)` (app.py 157-248): the two
numeric fields are mandatory — a failure of either parse raises `ValueError`
(modelled as `none`); the categorical one-hot writes are best-effort; the
result lists the map's values in the schema's declared column order
(app.py 248). -/
def create_feature_vector (input : InputData) (columns : List String) :
    Option (List Rat) :=
  match towerVal input.towerType, budgetVal input.budget with
  | some t, some b => some (columns.map (fvFun input columns t b))
  | _, _ => none

/-! ## Error taxonomy of the HTTP handlers

Each constructor names one error response of `app.py`:

* `notFound` — 404 (`User not found`, `Project ID not found`);
* `forbidden` — 403 (all authorization refusals);
* `missingFields` — 400 `Missing input features or project details` (POST);
* `malformedInput` — 400 `Input data formatting failed` (the `ValueError`
  handler of the prediction loop, app.py 485-487);
* `invalidAction` — 400 `Invalid status or unauthorized action` (PUT);
* `serverError` — 500 (an uncaught or non-`ValueError` exception);
* `serviceUnavailable` — 503 `Model assets not loaded on server`.
-/
inductive ApiErr where
  | notFound
  | forbidden
  | missingFields
  | malformedInput
  | invalidAction
  | serverError
  | serviceUnavailable
deriving DecidableEq, Repr

deriving instance DecidableEq for Except

/-- The kind of runtime exception an external scorer may raise: Python's
`except ValueError` (app.py 485) catches the first kind; the generic
`except Exception` (app.py 488) catches the second. -/
inductive PyErr where
  | valueError
  | otherError
deriving DecidableEq, Repr

/-! ## Inference orchestrator: the prediction loop (app.py 472-490) -/

/-- One entry of `LOADED_MODELS`: a model name, its expected ordered column
schema, and its opaque scoring function (the composition
`scaler.transform` → `session.run` → `float(...)` of app.py 478-484, which
may raise). -/
structure RegEntry where
  name : String
  columns : List String
  scorer : List Rat → Except PyErr Rat

/-- The prediction loop of the POST handler, with its exception handlers:
each model's feature vector is built and scored in turn inside one `try`;
a `ValueError` (from `create_feature_vector` or from a scorer) aborts the
whole call with the 400 `malformedInput` response, any other scorer
exception aborts it with the 500 `serverError` response.  `acc` carries the
predictions accumulated so far in registry order. -/
def scoreModels (input : InputData) :
    List RegEntry → List (String × Rat) → Except ApiErr (List (String × Rat))
  | [], acc => .ok acc
  | entry :: rest, acc =>
    match create_feature_vector input entry.columns with
    | none => .error .malformedInput
    | some vec =>
      match entry.scorer vec with
      | .ok r => scoreModels input rest (acc ++ [(entry.name, r)])
      | .error .valueError => .error .malformedInput
      | .error .otherError => .error .serverError

/-- `scoreAll`: run the whole prediction loop over the registry. -/
def scoreAll (input : InputData) (models : List RegEntry) :
    Except ApiErr (List (String × Rat)) :=
  scoreModels input models []

/-! ## Stored records and the database (app.py 71-113) -/

/-- A row of the `User` table.  `state` and `admin_level` are nullable
columns (`None` for employees). -/
structure User where
  name : String
  email : String
  role : String
  state : Option String
  admin_level : Option String
deriving DecidableEq, Repr

/-- A row of the `Project` table.  `forecast_data` holds the parsed forecast
map (the JSON text column, decoded). -/
structure Project where
  id : Nat
  budget : String
  location : String
  tower_type : String
  substation_type : String
  geo : String
  taxes : String
  status : String
  created_at : String
  created_by_email : String
  forecast_data : List (String × Rat)
deriving DecidableEq, Repr

/-- The two mutable tables. -/
structure DB where
  users : List User
  projects : List Project
deriving DecidableEq, Repr

/-- `User.query.filter_by(email=email).first()`. -/
def findUser (db : DB) (email : String) : Option User :=
  db.users.find? (fun u => u.email = email)

/-- `Project.query.get(project_id)`: lookup by primary key. -/
def findProject (db : DB) (pid : Nat) : Option Project :=
  db.projects.find? (fun p => p.id = pid)

/-- The committed effect of `project_to_update.status = new_status` followed
by `db.session.commit()`: the row with primary key `pid` gets the new
status, all other rows are unchanged. -/
def updateStatus (db : DB) (pid : Nat) (new_status : String) : DB :=
  { db with
    projects := db.projects.map
      (fun p => if p.id = pid then { p with status := new_status } else p) }

/-! ## GET: fetch projects (app.py 332-388) -/

/-- `[city for city, state in CITY_TO_STATE_MAP.items() if state == admin_state]`
(app.py 345-347).  `admin_state` is the nullable `user.state` column; the
Python `==` against `None` is always false. -/
def citiesInState (admin_state : Option String) : List String :=
  (CITY_TO_STATE_MAP.filter (fun kv => decide (admin_state = some kv.2))).map Prod.fst

/-- The descending creation-timestamp order used by the central-admin view
(`order_by(Project.created_at.desc())`, app.py 374). -/
def createdDesc (a b : Project) : Prop := b.created_at ≤ a.created_at

instance : DecidableRel createdDesc :=
  fun a b => inferInstanceAs (Decidable (b.created_at ≤ a.created_at))

/-- The GET branch of `project_management` (app.py 332-388): a 404 when the
requesting email matches no user; else the role/scope-dependent selection.
The state-admin `pending_projects.union(admin_projects)` over one table is
the filter of the disjunction of the two predicates; the central-admin view
is the status filter sorted by `created_at` descending (`order_by` with a
deterministic sort model; SQL leaves tie order open, as does any sorted
permutation). -/
def get_projects (db : DB) (user_email : String) : Except ApiErr (List Project) :=
  match findUser db user_email with
  | none => .error .notFound
  | some user =>
    if user.role = "admin" then
      if user.admin_level = some "state" then
        let cities := citiesInState user.state
        if cities.isEmpty then
          .ok (db.projects.filter (fun p => decide (p.created_by_email = user_email)))
        else
          .ok (db.projects.filter
            (fun p => decide ((p.location ∈ cities ∧ p.status = "pending") ∨
                              p.created_by_email = user_email)))
      else if user.admin_level = some "central" then
        .ok (List.insertionSort createdDesc
          (db.projects.filter (fun p => decide (p.status = "pending central approval"))))
      else
        .ok []
    else
      .ok (db.projects.filter (fun p => decide (p.created_by_email = user_email)))

/-! ## PUT: update project status (app.py 393-446) -/

/-- The PUT branch of `project_management` for a given project id: look up
the caller and the project (404 when the project is missing), then the
authorization ladder of app.py 407-432, then either the committed status
update (app.py 434-439) or the 400 response for a requested status outside
`{approved, declined}` (app.py 444-445). -/
def put_project_status (db : DB) (pid : Nat) (new_status email : String) :
    Except ApiErr DB :=
  let user := findUser db email
  match findProject db pid with
  | none => .error .notFound
  | some proj =>
    match user with
    | none => .error .forbidden
    | some u =>
      if u.role ≠ "admin" then .error .forbidden
      else if proj.created_by_email = email then .error .forbidden
      else if new_status = "approved" ∨ new_status = "declined" then
        let project_state := get_state_from_city proj.location
        if proj.status = "pending" then
          if u.admin_level ≠ some "state" ∨ u.state ≠ some project_state then
            .error .forbidden
          else .ok (updateStatus db pid new_status)
        else if proj.status = "pending central approval" then
          if u.admin_level ≠ some "central" then .error .forbidden
          else .ok (updateStatus db pid new_status)
        else
          -- any other current status falls through both guards straight to
          -- the update (app.py 434-439)
          .ok (updateStatus db pid new_status)
      else .error .invalidAction

/-! ## POST: create a project (app.py 451-536) -/

/-- The `project_details` dictionary of a creation request; a `none` field
is one absent from the dictionary. -/
structure ProjDetails where
  createdBy : Option String
  createdAt : Option String
deriving DecidableEq, Repr

/-- A creation request body: `data.get("input_features")` and
`data.get("project_details")` (absent or empty dictionaries are falsy and
rejected up front, app.py 456-457). -/
structure CreateReq where
  input_features : Option InputData
  project_details : Option ProjDetails
deriving DecidableEq, Repr

/-- The central-admin creation guard (app.py 459-464): run only when
`project_details.get('createdBy')` is truthy (present and nonempty), and
refuses only when that email resolves to an admin with `admin_level` =
`central`. -/
def centralRefused (db : DB) (createdBy : Option String) : Bool :=
  match createdBy with
  | some e =>
    e ≠ "" &&
      (match findUser db e with
       | some creator => creator.role = "admin" && creator.admin_level = some "central"
       | none => false)
  | none => false

/-- The initial status of a new project (app.py 497-505): `'pending'` unless
the creator resolves to an admin, in which case a `state` admin yields
`'pending central approval'` and a `central` admin yields `'approved'`. -/
def initialStatus (db : DB) (createdBy : String) : String :=
  match findUser db createdBy with
  | some creator =>
    if creator.role = "admin" then
      if creator.admin_level = some "state" then "pending central approval"
      else if creator.admin_level = some "central" then "approved"
      else "pending"
    else "pending"
  | none => "pending"

/-- The POST branch of `project_management` (app.py 451-536): missing
request parts → 400; the central-admin guard → 403; an empty registry → 503;
the prediction loop (propagating its 400/500); then the project row is
assembled (a `KeyError` on a missing required dictionary key surfaces as an
uncaught exception, i.e. a 500) and committed with the DB-assigned id
`nextId`.  Success returns the new table state and the saved row. -/
def post_project (db : DB) (req : CreateReq) (models : List RegEntry) (nextId : Nat) :
    Except ApiErr (DB × Project) :=
  match req.input_features, req.project_details with
  | some input, some details =>
    if centralRefused db details.createdBy then .error .forbidden
    else if models.isEmpty then .error .serviceUnavailable
    else
      match scoreAll input models with
      | .error e => .error e
      | .ok preds =>
        match details.createdBy, details.createdAt,
              input.budget, input.towerType,
              input.location, input.substationType, input.geo, input.taxes with
        | some createdBy, some createdAt,
          some budget, some towerType,
          some location, some substationType, some geo, some taxes =>
          let newProject : Project :=
            { id := nextId,
              budget := budget.pyStr,
              location := location,
              tower_type := towerType.pyStr,
              substation_type := substationType,
              geo := geo,
              taxes := taxes,
              status := initialStatus db createdBy,
              created_at := createdAt,
              created_by_email := createdBy,
              forecast_data := preds }
          .ok ({ db with projects := db.projects ++ [newProject] }, newProject)
        | _, _, _, _, _, _, _, _ => .error .serverError
  | _, _ => .error .missingFields

/-! ## Concrete fixtures used by witnesses and counterexamples -/

/-- An employee. -/
def empBob : User :=
  { name := "Bob", email := "bob@x.com", role := "employee",
    state := none, admin_level := none }

/-- A Karnataka state admin. -/
def stAdminKA : User :=
  { name := "Asha", email := "asha@x.com", role := "admin",
    state := some "Karnataka", admin_level := some "state" }

/-- A state admin whose recorded home state is the literal `"Unknown"`. -/
def stAdminUnknown : User :=
  { name := "Uma", email := "uma@x.com", role := "admin",
    state := some "Unknown", admin_level := some "state" }

/-- A central admin. -/
def centralCarl : User :=
  { name := "Carl", email := "carl@x.com", role := "admin",
    state := some "Delhi", admin_level := some "central" }

/-- A project created by Bob, already in a terminal status. -/
def projApprovedBengaluru : Project :=
  { id := 1, budget := "10", location := "Bengaluru", tower_type := "400 kV",
    substation_type := "AIS", geo := "Urban", taxes := "18% GST",
    status := "approved", created_at := "2024-01-01 10:00:00",
    created_by_email := "bob@x.com", forecast_data := [] }

/-- A pending project of Bob's in a location absent from the city map. -/
def projPendingAtlantis : Project :=
  { id := 2, budget := "10", location := "Atlantis", tower_type := "400 kV",
    substation_type := "AIS", geo := "Urban", taxes := "18% GST",
    status := "pending", created_at := "2024-01-02 10:00:00",
    created_by_email := "bob@x.com", forecast_data := [] }

/-- A pending project of Bob's in Bengaluru. -/
def projPendingBengaluru : Project :=
  { id := 3, budget := "10", location := "Bengaluru", tower_type := "400 kV",
    substation_type := "AIS", geo := "Urban", taxes := "18% GST",
    status := "pending", created_at := "2024-01-03 10:00:00",
    created_by_email := "bob@x.com", forecast_data := [] }

/-- A state-admin-created project awaiting central approval. -/
def projPCAByAsha : Project :=
  { id := 4, budget := "10", location := "Mysore", tower_type := "400 kV",
    substation_type := "AIS", geo := "Urban", taxes := "18% GST",
    status := "pending central approval", created_at := "2024-01-04 10:00:00",
    created_by_email := "asha@x.com", forecast_data := [] }

/-- A well-formed `input_features` dictionary. -/
def okInput : InputData :=
  { towerType := some (.jstr "400 kV"), budget := some (.jstr "10"),
    location := some "Bengaluru",
    substationType := some "AIS (Air Insulated Substation)",
    geo := some "Urban", taxes := some "18% GST" }

/-- A small schema shared by the fixture models. -/
def schemaA : List String := ["Voltage_kV", "Estimated_Cost_Million"]

/-- A model whose scorer always succeeds. -/
def okModel : RegEntry :=
  { name := "steel", columns := schemaA, scorer := fun _ => .ok (mkRat 7 1) }

/-- A model whose scorer raises a non-`ValueError` runtime exception. -/
def badModel : RegEntry :=
  { name := "tower", columns := schemaA, scorer := fun _ => .error .otherError }

/-- The fixture database for C10's witness: Bob's pending project in the
unmapped location `"Atlantis"`, and the `"Unknown"`-state admin. -/
def dbC10 : DB :=
  { users := [empBob, stAdminUnknown], projects := [projPendingAtlantis] }

/-- The fixture database for C1: Bob's already-approved project and the
central admin Carl (who did not create it). -/
def dbC1 : DB :=
  { users := [empBob, centralCarl], projects := [projApprovedBengaluru] }

/-- The fixture database for C3's witness. -/
def dbC3 : DB :=
  { users := [empBob, stAdminKA, centralCarl],
    projects := [projPendingBengaluru, projPCAByAsha] }

/-- The column keys `create_feature_vector` may write for a given input:
the two numeric columns and the four synthesized one-hot keys of the
categorical fields that are present. -/
def assignedKeys (input : InputData) : List String :=
  ["Voltage_kV", "Estimated_Cost_Million"]
  ++ (match input.location with | some l => ["Location_ " ++ l] | none => [])
  ++ (match input.substationType with | some s => [substationKey s] | none => [])
  ++ (match input.geo with | some g => ["Geographical_Zone_ " ++ g] | none => [])
  ++ (match input.taxes with | some t => ["Taxes_Applicable_" ++ t] | none => [])

/-- The three-column schema of C7's witness; its third column is a one-hot
key the witness input does not produce. -/
def cols7 : List String := ["Voltage_kV", "Estimated_Cost_Million", "Location_ Delhi"]

/-- C6's witness input: `towerType` absent. -/
def inputNoTower : InputData :=
  { okInput with towerType := none }

/-- The §8 feature vector of the fixture schema. -/
def vecA : List Rat := [mkRat 400 1, mkRat 1 100000]

/-- A creation database: the three identities, no projects yet. -/
def dbPost : DB :=
  { users := [empBob, stAdminKA, centralCarl], projects := [] }

/-- Bob's `project_details`. -/
def detailsBob : ProjDetails :=
  { createdBy := some "bob@x.com", createdAt := some "2024-02-01 09:00:00" }

/-- Asha's `project_details`. -/
def detailsAsha : ProjDetails :=
  { createdBy := some "asha@x.com", createdAt := some "2024-02-01 10:00:00" }

/-- Carl's `project_details`. -/
def detailsCarl : ProjDetails :=
  { createdBy := some "carl@x.com", createdAt := some "2024-02-01 11:00:00" }

/-- `project_details` naming a creator email that matches no stored user. -/
def detailsGhost : ProjDetails :=
  { createdBy := some "ghost@x.com", createdAt := some "2024-02-01 12:00:00" }

/-- The row saved for Bob's creation request. -/
def projBobNew : Project :=
  { id := 7, budget := "10", location := "Bengaluru",
    tower_type := "400 kV", substation_type := "AIS (Air Insulated Substation)",
    geo := "Urban", taxes := "18% GST", status := "pending",
    created_at := "2024-02-01 09:00:00", created_by_email := "bob@x.com",
    forecast_data := [("steel", mkRat 7 1)] }

/-- The row saved for Asha's creation request. -/
def projAshaNew : Project :=
  { id := 8, budget := "10", location := "Bengaluru",
    tower_type := "400 kV", substation_type := "AIS (Air Insulated Substation)",
    geo := "Urban", taxes := "18% GST", status := "pending central approval",
    created_at := "2024-02-01 10:00:00", created_by_email := "asha@x.com",
    forecast_data := [("steel", mkRat 7 1)] }

/-- The row saved for the unknown creator's request. -/
def projGhostNew : Project :=
  { id := 9, budget := "10", location := "Bengaluru",
    tower_type := "400 kV", substation_type := "AIS (Air Insulated Substation)",
    geo := "Urban", taxes := "18% GST", status := "pending",
    created_at := "2024-02-01 12:00:00", created_by_email := "ghost@x.com",
    forecast_data := [("steel", mkRat 7 1)] }

/-- The fixture database for C8's counterexample: the `"Unknown"`-home-state
admin and a pending proposal (someone else's) whose location resolves to
`"Unknown"`. -/
def dbC8 : DB :=
  { users := [empBob, stAdminUnknown], projects := [projPendingAtlantis] }

instance : IsTotal Project createdDesc :=
  ⟨fun a b => le_total b.created_at a.created_at⟩

instance : IsTrans Project createdDesc :=
  ⟨fun _ _ _ hab hbc => le_trans hbc hab⟩

/-! ## Model sanity checks -/

-- A few sanity checks on the `float()` model.
example : pyFloat "400" = some (mkRat 400 1) := by decide
example : pyFloat "10000000" = some (mkRat 10000000 1) := by decide
example : pyFloat "" = none := by decide
example : pyFloat "abc" = none := by decide
example : pyFloat "-2.5" = some (mkRat (-5) 2) := by decide
example : pyFloat " 10 " = some (mkRat 10 1) := by decide
example : pyFloat "1e3" = some (mkRat 1000 1) := by decide
example : leadingToken "400 kV" = "400" := by decide
example : leadingToken "" = "" := by decide
example : pyReplace "AIS (Air Insulated Substation)" " (" "_(" = "AIS_(Air Insulated Substation)" := by decide

-- The documented scenario: §8 of the forecast spec, client.py example input.
example :
    create_feature_vector
      { towerType := some (.jstr "400 kV"), budget := some (.jstr "10000000"),
        location := some "Bengaluru",
        substationType := some "AIS (Air Insulated Substation)",
        geo := some "Urban", taxes := some "18% GST" }
      ["Voltage_kV", "Estimated_Cost_Million", "Location_ Bengaluru",
       "Substation_Type__AIS__Air_Insulated_Substation", "Geographical_Zone_ Urban",
       "Taxes_Applicable_18% GST", "Location_ Delhi"]
    = some [mkRat 400 1, mkRat 10 1, 1, 1, 1, 1, 0] := by decide

/-! ## Helper lemmas -/

/-- After the committed status update of row `pid`, looking `pid` up again
returns the same row with only `status` overwritten. -/
theorem findProject_updateStatus (db : DB) (pid : Nat) (ns : String) :
    findProject (updateStatus db pid ns) pid =
      (findProject db pid).map (fun p => { p with status := ns }) := by
  unfold findProject updateStatus
  rw [List.find?_map]
  have hcomp : ((fun p : Project => decide (p.id = pid)) ∘
      (fun p => if p.id = pid then { p with status := ns } else p)) =
      (fun p : Project => decide (p.id = pid)) := by
    funext p
    by_cases h : p.id = pid <;> simp [h]
  rw [hcomp]
  cases hf : db.projects.find? (fun p => decide (p.id = pid)) with
  | none => rfl
  | some proj =>
    have hp := List.find?_some hf
    simp only [decide_eq_true_eq] at hp
    simp [hp]

/-! ## C10 — totality of the geography resolver, and who may act on a
pending proposal in an unmapped location -/

/-- C10: the geography resolver maps every city of the static map to its
recorded state and every other location to the literal `"Unknown"`, never
failing; consequently a successful `setStatus` on a pending proposal whose
location is unmapped can only have been performed by a state admin whose
recorded home state is the string `"Unknown"`. -/
theorem c10_resolver_total_unknown_admin :
    (∀ city st, (city, st) ∈ CITY_TO_STATE_MAP → get_state_from_city city = st) ∧
    (∀ city, city ∉ CITY_TO_STATE_MAP.map Prod.fst →
      get_state_from_city city = "Unknown") ∧
    (∀ db pid ns email proj db',
      findProject db pid = some proj →
      proj.status = "pending" →
      proj.location ∉ CITY_TO_STATE_MAP.map Prod.fst →
      put_project_status db pid ns email = .ok db' →
      ∃ u, findUser db email = some u ∧ u.admin_level = some "state" ∧
           u.state = some "Unknown") := by
  have hunk : ∀ city, city ∉ CITY_TO_STATE_MAP.map Prod.fst →
      get_state_from_city city = "Unknown" := by
    intro city hn
    unfold get_state_from_city
    have : CITY_TO_STATE_MAP.find? (fun kv => kv.1 = city) = none := by
      apply List.find?_eq_none.mpr
      intro kv hkv
      simp only [decide_eq_true_eq]
      intro heq
      exact hn (heq ▸ List.mem_map_of_mem Prod.fst hkv)
    rw [this]
  refine ⟨?_, hunk, ?_⟩
  · intro city st hmem
    fin_cases hmem <;> rfl
  · intro db pid ns email proj db' hp hpend hloc h
    unfold put_project_status at h
    rw [hp] at h
    cases hu : findUser db email with
    | none => rw [hu] at h; exact absurd h (by simp)
    | some u =>
      rw [hu] at h
      refine ⟨u, rfl, ?_⟩
      by_cases hrole : u.role ≠ "admin"
      · simp [hrole] at h
      · simp only [hrole, if_false] at h
        by_cases hcreator : proj.created_by_email = email
        · simp [hcreator] at h
        · simp only [hcreator, if_false] at h
          by_cases hns : ns = "approved" ∨ ns = "declined"
          · simp only [hns, if_true, hpend, if_true] at h
            by_cases hguard : u.admin_level ≠ some "state" ∨
                u.state ≠ some (get_state_from_city proj.location)
            · simp [hguard] at h
            · push_neg at hguard
              rw [hunk proj.location hloc] at hguard
              exact ⟨hguard.1, hguard.2⟩
          · simp [hns] at h

/-- Witness for C10 at concrete inputs: a mapped city resolves to its state,
an unmapped one to `"Unknown"`, and the admin of a successful transition on
the pending Atlantis project has `admin_level = state` and home state
`"Unknown"`. -/
theorem c10_witness :
    get_state_from_city "Lucknow" = "Uttar Pradesh" ∧
    get_state_from_city "Atlantis" = "Unknown" ∧
    stAdminUnknown.admin_level = some "state" ∧
    stAdminUnknown.state = some "Unknown" := by
  refine ⟨c10_resolver_total_unknown_admin.1 "Lucknow" "Uttar Pradesh" (by decide),
          c10_resolver_total_unknown_admin.2.1 "Atlantis" (by decide), ?_⟩
  obtain ⟨u, hu, hlvl, hst⟩ :=
    c10_resolver_total_unknown_admin.2.2 dbC10 2 "approved" "uma@x.com"
      projPendingAtlantis (updateStatus dbC10 2 "approved")
      (by decide) (by decide) (by decide) (by decide)
  have he : findUser dbC10 "uma@x.com" = some stAdminUnknown := by decide
  rw [he] at hu
  cases hu
  exact ⟨hlvl, hst⟩

/-! ## C1 — what happens to a terminal-status proposal on `setStatus` -/

/-- C1 counterexample: the claim says a `setStatus` to `declined` on an
`approved` proposal is refused with `InvalidState` and leaves the status
unchanged; on the code, admin Carl's request on Bob's approved project
succeeds and overwrites the stored status with `declined`. -/
theorem c1_counterexample :
    projApprovedBengaluru.status = "approved" ∧
    centralCarl.role = "admin" ∧
    projApprovedBengaluru.created_by_email ≠ centralCarl.email ∧
    put_project_status dbC1 1 "declined" "carl@x.com" =
      .ok (updateStatus dbC1 1 "declined") ∧
    (findProject (updateStatus dbC1 1 "declined") 1).map Project.status =
      some "declined" := by decide

/-- C1 (amended): for every proposal whose current status is neither
`pending` nor `pending central approval` (e.g. `approved` or `declined`), a
`setStatus` call requesting `approved` or `declined` by any admin who did
not create the proposal is **not** refused: it succeeds and overwrites the
status with the requested one (there is no `InvalidState` refusal in the
code; only non-admins and the creator are refused, with `Forbidden`). -/
theorem c1_amended_terminal_overwritten (db : DB) (pid : Nat) (ns email : String)
    (proj : Project) (u : User)
    (hp : findProject db pid = some proj)
    (hu : findUser db email = some u)
    (hrole : u.role = "admin")
    (hnc : proj.created_by_email ≠ email)
    (hs1 : proj.status ≠ "pending")
    (hs2 : proj.status ≠ "pending central approval")
    (hns : ns = "approved" ∨ ns = "declined") :
    put_project_status db pid ns email = .ok (updateStatus db pid ns) ∧
    findProject (updateStatus db pid ns) pid = some { proj with status := ns } := by
  constructor
  · unfold put_project_status
    rw [hp, hu]
    simp [hrole, hnc, hs1, hs2, if_pos hns]
  · rw [findProject_updateStatus, hp]
    rfl

/-- Witness for the amended C1 at a concrete input. -/
theorem c1_amended_witness :
    put_project_status dbC1 1 "declined" "carl@x.com" =
      .ok (updateStatus dbC1 1 "declined") :=
  (c1_amended_terminal_overwritten dbC1 1 "declined" "carl@x.com"
    projApprovedBengaluru centralCarl (by decide) (by decide) rfl
    (by decide) (by decide) (by decide) (Or.inr rfl)).1

/-! ## C3 — `setStatus` authorization -/

/-- C3: on an existing proposal, `setStatus` answers `Forbidden` whenever
the caller is not an admin (including an unknown caller) or the caller
created the proposal; and a successful transition of a `pending` proposal
implies the caller is a state admin whose home state equals the state
resolved from the proposal's location, while a successful transition of a
`pending central approval` proposal implies the caller is a central
admin. -/
theorem c3_setStatus_authorization (db : DB) (pid : Nat) (ns email : String)
    (proj : Project) (hp : findProject db pid = some proj) :
    (((∀ u, findUser db email = some u → u.role ≠ "admin") ∨
        proj.created_by_email = email) →
      put_project_status db pid ns email = .error .forbidden) ∧
    (∀ db', put_project_status db pid ns email = .ok db' →
      proj.status = "pending" →
      ∃ u, findUser db email = some u ∧ u.role = "admin" ∧
           u.admin_level = some "state" ∧
           u.state = some (get_state_from_city proj.location)) ∧
    (∀ db', put_project_status db pid ns email = .ok db' →
      proj.status = "pending central approval" →
      ∃ u, findUser db email = some u ∧ u.role = "admin" ∧
           u.admin_level = some "central") := by
  refine ⟨?_, ?_, ?_⟩
  · intro hdisj
    unfold put_project_status
    rw [hp]
    cases hu : findUser db email with
    | none => rfl
    | some u =>
      cases hdisj with
      | inl hna =>
        have : u.role ≠ "admin" := hna u hu
        simp [this]
      | inr hcr =>
        by_cases hrole : u.role ≠ "admin"
        · simp [hrole]
        · simp [hrole, hcr]
  · intro db' h hpend
    unfold put_project_status at h
    rw [hp] at h
    cases hu : findUser db email with
    | none => rw [hu] at h; exact absurd h (by simp)
    | some u =>
      rw [hu] at h
      refine ⟨u, rfl, ?_⟩
      by_cases hrole : u.role ≠ "admin"
      · simp [hrole] at h
      · push_neg at hrole
        by_cases hcr : proj.created_by_email = email
        · simp [hcr] at h
        · by_cases hns : ns = "approved" ∨ ns = "declined"
          · simp only [hcr, if_false, if_pos hns, hpend, if_true] at h
            simp only [hrole, ne_eq, not_true_eq_false, if_false] at h
            by_cases hguard : u.admin_level ≠ some "state" ∨
                u.state ≠ some (get_state_from_city proj.location)
            · simp [hguard] at h
            · push_neg at hguard
              exact ⟨hrole, hguard.1, hguard.2⟩
          · simp [hcr, hns, hrole] at h
  · intro db' h hpca
    unfold put_project_status at h
    rw [hp] at h
    cases hu : findUser db email with
    | none => rw [hu] at h; exact absurd h (by simp)
    | some u =>
      rw [hu] at h
      refine ⟨u, rfl, ?_⟩
      by_cases hrole : u.role ≠ "admin"
      · simp [hrole] at h
      · push_neg at hrole
        by_cases hcr : proj.created_by_email = email
        · simp [hcr] at h
        · by_cases hns : ns = "approved" ∨ ns = "declined"
          · have hnotpend : proj.status ≠ "pending" := by rw [hpca]; decide
            simp only [hcr, if_false, if_pos hns, hnotpend, hpca, if_true,
              hrole, ne_eq, not_true_eq_false] at h
            by_cases hlvl : u.admin_level ≠ some "central"
            · simp [hlvl] at h
            · push_neg at hlvl
              exact ⟨hrole, hlvl⟩
          · simp [hcr, hns, hrole] at h

/-- Witness for C3 at concrete inputs: employee Bob's request is refused
with `Forbidden`; the state admin who successfully actions Bob's pending
Bengaluru project is scope `state` with home state `Karnataka` (Bengaluru's
resolved state); the admin who successfully actions Asha's
pending-central-approval project is scope `central`. -/
theorem c3_witness :
    put_project_status dbC3 3 "approved" "bob@x.com" = .error .forbidden ∧
    stAdminKA.admin_level = some "state" ∧
    stAdminKA.state = some (get_state_from_city projPendingBengaluru.location) ∧
    centralCarl.admin_level = some "central" := by
  have hnotadmin : ∀ u, findUser dbC3 "bob@x.com" = some u → u.role ≠ "admin" := by
    intro u hu
    rw [show findUser dbC3 "bob@x.com" = some empBob from by decide] at hu
    cases hu
    decide
  have hforb := (c3_setStatus_authorization dbC3 3 "approved" "bob@x.com"
      projPendingBengaluru (by decide)).1 (Or.inl hnotadmin)
  obtain ⟨u1, hu1, _, hlvl1, hst1⟩ :=
    (c3_setStatus_authorization dbC3 3 "approved" "asha@x.com"
        projPendingBengaluru (by decide)).2.1
      (updateStatus dbC3 3 "approved") (by decide) (by decide)
  obtain ⟨u2, hu2, _, hlvl2⟩ :=
    (c3_setStatus_authorization dbC3 4 "declined" "carl@x.com"
        projPCAByAsha (by decide)).2.2
      (updateStatus dbC3 4 "declined") (by decide) (by decide)
  rw [show findUser dbC3 "asha@x.com" = some stAdminKA by decide] at hu1
  rw [show findUser dbC3 "carl@x.com" = some centralCarl by decide] at hu2
  cases hu1; cases hu2
  exact ⟨hforb, hlvl1, by rw [← hst1], hlvl2⟩

/-! ## C7 — shape of a successfully built feature vector -/

/-- `setIfMem` leaves every other key's value unchanged. -/
theorem setIfMem_ne (cols : List String) (f : String → Rat) (k : String)
    (v : Rat) (c : String) (h : c ≠ k) : setIfMem cols f k v c = f c := by
  unfold setIfMem
  split
  · exact Function.update_noteq h v f
  · rfl

/-- A fold of guarded writes leaves every key outside the write list at its
prior value. -/
theorem foldl_setIfMem_not_mem (cols : List String) (writes : List (String × Rat))
    (f : String → Rat) (c : String) (h : c ∉ writes.map Prod.fst) :
    (writes.foldl (fun fv kv => setIfMem cols fv kv.1 kv.2) f) c = f c := by
  induction writes generalizing f with
  | nil => rfl
  | cons kv rest ih =>
    simp only [List.map_cons, List.mem_cons, not_or] at h
    rw [List.foldl_cons, ih _ h.2, setIfMem_ne _ _ _ _ _ h.1]

/-- The write keys are exactly `assignedKeys input`, whatever the parsed
numeric values. -/
theorem fvWrites_keys (input : InputData) (t b : Rat) :
    (fvWrites input t b).map Prod.fst = assignedKeys input := by
  obtain ⟨tw, bu, lo, su, ge, ta⟩ := input
  cases lo <;> cases su <;> cases ge <;> cases ta <;> rfl

/-- A column outside `assignedKeys input` keeps its initial `0.0`. -/
theorem fvFun_unassigned (input : InputData) (columns : List String)
    (t b : Rat) (c : String) (h : c ∉ assignedKeys input) :
    fvFun input columns t b c = 0 := by
  unfold fvFun
  rw [foldl_setIfMem_not_mem]
  rw [fvWrites_keys]
  exact h

/-- C7: whenever `create_feature_vector` succeeds, the returned vector has
exactly one entry per schema column in the schema's declared order (its
length is the schema's length and the entry at a position is a function of
the column name at that position), every column not assigned by the numeric
or one-hot rules is `0.0`, and success never depends on the categorical
fields — an unrecognized synthesized one-hot key is dropped silently, never
a failure (success is equivalent to both numeric fields parsing). -/
theorem c7_vector_shape (input : InputData) (columns : List String) :
    (∀ v, create_feature_vector input columns = some v →
      v.length = columns.length ∧
      (∀ i c, columns.get? i = some c → c ∉ assignedKeys input →
        v.get? i = some 0) ∧
      (∀ i j c, columns.get? i = some c → columns.get? j = some c →
        v.get? i = v.get? j)) ∧
    ((create_feature_vector input columns).isSome ↔
      (towerVal input.towerType).isSome ∧ (budgetVal input.budget).isSome) := by
  constructor
  · intro v hv
    unfold create_feature_vector at hv
    cases ht : towerVal input.towerType with
    | none => rw [ht] at hv; cases hv
    | some t =>
      cases hb : budgetVal input.budget with
      | none => rw [ht, hb] at hv; cases hv
      | some b =>
        rw [ht, hb] at hv
        cases hv
        refine ⟨List.length_map _ _, ?_, ?_⟩
        · intro i c hc hnotmem
          rw [List.get?_map, hc]
          simp [fvFun_unassigned input columns t b c hnotmem]
        · intro i j c hci hcj
          rw [List.get?_map, List.get?_map, hci, hcj]
  · unfold create_feature_vector
    cases ht : towerVal input.towerType with
    | none => simp
    | some t =>
      cases hb : budgetVal input.budget with
      | none => simp
      | some b => simp

/-- Witness for C7 at a concrete input: the built vector has the schema's
length and carries `0.0` in the column the input never assigns, and the
build succeeds although the input's substation key is absent from the
schema. -/
theorem c7_witness :
    (create_feature_vector okInput cols7).isSome ∧
    ([mkRat 400 1, mkRat 1 100000, 0] : List Rat).length = cols7.length ∧
    ([mkRat 400 1, mkRat 1 100000, 0] : List Rat).get? 2 = some 0 := by
  have hv : create_feature_vector okInput cols7 =
      some [mkRat 400 1, mkRat 1 100000, 0] := by decide
  refine ⟨?_, ?_, ?_⟩
  · exact (c7_vector_shape okInput cols7).2.mpr ⟨by decide, by decide⟩
  · exact ((c7_vector_shape okInput cols7).1 _ hv).1
  · exact ((c7_vector_shape okInput cols7).1 _ hv).2.1 2 "Location_ Delhi"
      (by decide) (by decide)

/-! ## C6 — missing/unparsable numeric fields are fatal for every schema
and fail the whole orchestration -/

/-- C6: if the `towerType` field is absent or its leading token does not
parse as a number, or the `budget` field is absent or does not parse as a
number, then `create_feature_vector` fails for **every** schema, and
`scoreAll` over any nonempty registry fails whole with the 400
`malformedInput` response — no partial forecast map exists. -/
theorem c6_numeric_failure_is_fatal (input : InputData) (models : List RegEntry)
    (hbad : (∀ v, input.towerType = some v → pyFloat (leadingToken v.pyStr) = none) ∨
            (∀ v, input.budget = some v → budgetVal (some v) = none)) :
    (∀ columns, create_feature_vector input columns = none) ∧
    (models ≠ [] → scoreAll input models = .error .malformedInput) := by
  have hnum : towerVal input.towerType = none ∨ budgetVal input.budget = none := by
    cases hbad with
    | inl h =>
      left
      cases ht : input.towerType with
      | none => rfl
      | some v =>
        unfold towerVal
        show (if v.truthy = true then pyFloat (leadingToken v.pyStr) else none) = none
        rw [h v ht]
        split <;> rfl
    | inr h =>
      right
      cases hb : input.budget with
      | none => rfl
      | some v => exact h v hb
  have hfail : ∀ columns, create_feature_vector input columns = none := by
    intro columns
    unfold create_feature_vector
    cases hnum with
    | inl h => rw [h]
    | inr h =>
      rw [h]
      cases towerVal input.towerType <;> rfl
  refine ⟨hfail, ?_⟩
  intro hne
  cases models with
  | nil => exact absurd rfl hne
  | cons m rest =>
    unfold scoreAll scoreModels
    rw [hfail m.columns]

/-- Witness for C6 at a concrete input: with `towerType` absent, the builder
fails on a concrete schema and `scoreAll` over a one-model registry fails
whole with `malformedInput`. -/
theorem c6_witness :
    create_feature_vector inputNoTower schemaA = none ∧
    scoreAll inputNoTower [okModel] = .error .malformedInput := by
  have h := c6_numeric_failure_is_fatal inputNoTower [okModel]
    (Or.inl (fun v hv => nomatch hv))
  exact ⟨h.1 schemaA, h.2 (by simp)⟩

/-! ## C2 — a scorer's runtime failure is not isolated: it fails the call -/

/-- On a successful orchestration, the output names every registry entry in
order, after the accumulator prefix. -/
theorem scoreModels_ok_names (input : InputData) (ms : List RegEntry) :
    ∀ (acc res : List (String × Rat)),
      scoreModels input ms acc = .ok res →
      res.map Prod.fst = acc.map Prod.fst ++ ms.map RegEntry.name := by
  induction ms with
  | nil =>
    intro acc res h
    unfold scoreModels at h
    cases h
    simp
  | cons e rest ih =>
    intro acc res h
    unfold scoreModels at h
    cases hv : create_feature_vector input e.columns with
    | none => rw [hv] at h; cases h
    | some vec =>
      simp only [hv] at h
      cases hs : e.scorer vec with
      | error pe => simp only [hs] at h; cases pe <;> cases h
      | ok r =>
        simp only [hs] at h
        have := ih (acc ++ [(e.name, r)]) res h
        simpa [List.append_assoc] using this

/-- If every model before `entry` scores successfully and `entry`'s scorer
raises a non-`ValueError` exception on its (successfully built) vector, the
loop aborts with the 500 response, whatever follows. -/
theorem scoreModels_prefix_scorer_failure (input : InputData)
    (entry : RegEntry) (post : List RegEntry) (vec : List Rat)
    (hvec : create_feature_vector input entry.columns = some vec)
    (hs : entry.scorer vec = .error .otherError) :
    ∀ (pre : List RegEntry) (acc : List (String × Rat)),
      (∀ e ∈ pre, ∃ v r, create_feature_vector input e.columns = some v ∧
          e.scorer v = .ok r) →
      scoreModels input (pre ++ entry :: post) acc = .error .serverError := by
  intro pre
  induction pre with
  | nil =>
    intro acc _
    rw [List.nil_append]
    unfold scoreModels
    simp only [hvec, hs]
  | cons e pre' ih =>
    intro acc hpre
    obtain ⟨v, r, hv, hr⟩ := hpre e (List.mem_cons_self e pre')
    rw [List.cons_append]
    unfold scoreModels
    simp only [hv, hr]
    exact ih (acc ++ [(e.name, r)]) (fun x hx => hpre x (List.mem_cons_of_mem e hx))

/-- C2 counterexample: the claim says a scorer's runtime failure puts an
error marker in that model's entry and the other models are still scored;
on the code, with the failing `tower` model first and the healthy `steel`
model second, the whole call aborts with the 500 response — no forecast map
and no entry for `steel` — although `steel` alone scores fine. -/
theorem c2_counterexample :
    scoreAll okInput [badModel, okModel] = .error .serverError ∧
    scoreAll okInput [okModel] = .ok [("steel", mkRat 7 1)] := by
  constructor
  · show scoreModels okInput [badModel, okModel] [] = .error .serverError
    have h1 : create_feature_vector okInput badModel.columns = some vecA := by decide
    unfold scoreModels
    simp only [h1]
    rfl
  · show scoreModels okInput [okModel] [] = .ok [("steel", mkRat 7 1)]
    have h1 : create_feature_vector okInput okModel.columns = some vecA := by decide
    unfold scoreModels
    simp only [h1]
    rfl

/-- C2 (amended): the prediction loop never isolates a scorer failure.  A
successful `scoreAll` reports exactly the registered models, in registry
order, with a numeric score each (the output type admits no error marker);
and if some model's scorer raises a non-`ValueError` runtime exception
(every earlier model having scored), the whole call fails with the 500
`serverError` response — no model after the failing one runs and no partial
map is returned. -/
theorem c2_no_scorer_isolation (input : InputData) (models : List RegEntry) :
    (∀ res, scoreAll input models = .ok res →
      res.map Prod.fst = models.map RegEntry.name) ∧
    (∀ pre entry post vec, models = pre ++ entry :: post →
      (∀ e ∈ pre, ∃ v r, create_feature_vector input e.columns = some v ∧
          e.scorer v = .ok r) →
      create_feature_vector input entry.columns = some vec →
      entry.scorer vec = .error .otherError →
      scoreAll input models = .error .serverError) := by
  constructor
  · intro res h
    simpa using scoreModels_ok_names input models [] res h
  · intro pre entry post vec hmod hpre hvec hs
    rw [hmod]
    exact scoreModels_prefix_scorer_failure input entry post vec hvec hs pre [] hpre

/-- Witness for the amended C2 at concrete inputs. -/
theorem c2_amended_witness :
    scoreAll okInput [badModel] = .error .serverError ∧
    ([("steel", mkRat 7 1)] : List (String × Rat)).map Prod.fst =
      [okModel].map RegEntry.name := by
  constructor
  · exact (c2_no_scorer_isolation okInput [badModel]).2 [] badModel [] vecA rfl
      (by simp) (by decide) rfl
  · refine (c2_no_scorer_isolation okInput [okModel]).1 _ ?_
    show scoreModels okInput [okModel] [] = .ok [("steel", mkRat 7 1)]
    have h1 : create_feature_vector okInput okModel.columns = some vecA := by decide
    unfold scoreModels
    simp only [h1]
    rfl

/-! ## POST helper lemmas -/

/-- A successful creation implies the request carried a creator email, and
the saved row's status is exactly `initialStatus` of that email. -/
theorem post_project_ok_status (db : DB) (input : InputData) (details : ProjDetails)
    (models : List RegEntry) (nextId : Nat) (db' : DB) (p : Project)
    (h : post_project db ⟨some input, some details⟩ models nextId = .ok (db', p)) :
    ∃ cb, details.createdBy = some cb ∧ p.status = initialStatus db cb := by
  unfold post_project at h
  dsimp only at h
  cases href : centralRefused db details.createdBy with
  | true => rw [href] at h; simp at h
  | false =>
    rw [href] at h
    simp only [Bool.false_eq_true, if_false] at h
    cases hemp : models.isEmpty with
    | true => rw [hemp] at h; simp at h
    | false =>
      rw [hemp] at h
      simp only [Bool.false_eq_true, if_false] at h
      cases hscore : scoreAll input models with
      | error e => rw [hscore] at h; cases h
      | ok preds =>
        rw [hscore] at h
        cases hcb : details.createdBy with
        | none => simp only [hcb] at h; cases h
        | some cb =>
          simp only [hcb] at h
          cases hca : details.createdAt with
          | none => simp only [hca] at h; cases h
          | some ca =>
            simp only [hca] at h
            cases hbu : input.budget with
            | none => simp only [hbu] at h; cases h
            | some bu =>
              simp only [hbu] at h
              cases htw : input.towerType with
              | none => simp only [htw] at h; cases h
              | some tw =>
                simp only [htw] at h
                cases hlo : input.location with
                | none => simp only [hlo] at h; cases h
                | some lo =>
                  simp only [hlo] at h
                  cases hsu : input.substationType with
                  | none => simp only [hsu] at h; cases h
                  | some su =>
                    simp only [hsu] at h
                    cases hge : input.geo with
                    | none => simp only [hge] at h; cases h
                    | some ge =>
                      simp only [hge] at h
                      cases hta : input.taxes with
                      | none => simp only [hta] at h; cases h
                      | some ta =>
                        simp only [hta] at h
                        cases h
                        exact ⟨cb, rfl, rfl⟩

/-- The prediction loop never produces the 403 response. -/
theorem scoreModels_ne_forbidden (input : InputData) :
    ∀ (ms : List RegEntry) (acc : List (String × Rat)),
      scoreModels input ms acc ≠ .error .forbidden := by
  intro ms
  induction ms with
  | nil => intro acc h; cases h
  | cons e rest ih =>
    intro acc h
    unfold scoreModels at h
    cases hv : create_feature_vector input e.columns with
    | none => rw [hv] at h; cases h
    | some vec =>
      simp only [hv] at h
      cases hs : e.scorer vec with
      | error pe => simp only [hs] at h; cases pe <;> cases h
      | ok r =>
        simp only [hs] at h
        exact ih (acc ++ [(e.name, r)]) h

/-! ## C4 — initial status of a successfully created proposal -/

/-- C4: whenever a creation succeeds and the request's creator email resolves
to a stored identity, the saved proposal's initial status is decided by that
identity's role and scope: a non-admin yields `pending`, a state admin
yields `pending central approval`, and a central admin yields `approved`. -/
theorem c4_initial_status_by_role (db : DB) (input : InputData)
    (details : ProjDetails) (models : List RegEntry) (nextId : Nat)
    (db' : DB) (p : Project) (cb : String) (creator : User)
    (hok : post_project db ⟨some input, some details⟩ models nextId = .ok (db', p))
    (hcb : details.createdBy = some cb)
    (hcreator : findUser db cb = some creator) :
    (creator.role ≠ "admin" → p.status = "pending") ∧
    (creator.role = "admin" → creator.admin_level = some "state" →
      p.status = "pending central approval") ∧
    (creator.role = "admin" → creator.admin_level = some "central" →
      p.status = "approved") := by
  obtain ⟨cb', hcb', hstat⟩ :=
    post_project_ok_status db input details models nextId db' p hok
  rw [hcb] at hcb'
  cases hcb'
  refine ⟨?_, ?_, ?_⟩
  · intro hrole
    rw [hstat]
    unfold initialStatus
    rw [hcreator]
    simp [hrole]
  · intro hrole hlvl
    rw [hstat]
    unfold initialStatus
    rw [hcreator]
    simp [hrole, hlvl]
  · intro hrole hlvl
    rw [hstat]
    unfold initialStatus
    rw [hcreator]
    simp [hrole, hlvl]

/-- Witness for C4 at concrete inputs: employee Bob's creation starts
`pending` and state admin Asha's starts `pending central approval`. -/
theorem c4_witness :
    projBobNew.status = "pending" ∧
    projAshaNew.status = "pending central approval" := by
  have hbob : post_project dbPost ⟨some okInput, some detailsBob⟩ [okModel] 7 =
      .ok ({ dbPost with projects := [projBobNew] }, projBobNew) := by decide
  have hasha : post_project dbPost ⟨some okInput, some detailsAsha⟩ [okModel] 8 =
      .ok ({ dbPost with projects := [projAshaNew] }, projAshaNew) := by decide
  constructor
  · exact (c4_initial_status_by_role dbPost okInput detailsBob [okModel] 7 _ _
      "bob@x.com" empBob hbob rfl (by decide)).1 (by decide)
  · exact (c4_initial_status_by_role dbPost okInput detailsAsha [okModel] 8 _ _
      "asha@x.com" stAdminKA hasha rfl (by decide)).2.1 rfl rfl

/-! ## C5 — a central admin's creation request is refused up front -/

/-- C5: a creation request whose (nonempty) creator email resolves to an
admin with scope `central` is refused with `Forbidden`, whatever the model
registry and input — in particular before any model is scored (the refusal
does not depend on the scorers or on the registry being loaded) and with no
change persisted (the error response carries no new table state). -/
theorem c5_central_admin_creation_refused (db : DB) (input : InputData)
    (details : ProjDetails) (models : List RegEntry) (nextId : Nat)
    (cb : String) (creator : User)
    (hcb : details.createdBy = some cb)
    (hne : cb ≠ "")
    (hcreator : findUser db cb = some creator)
    (hrole : creator.role = "admin")
    (hlvl : creator.admin_level = some "central") :
    post_project db ⟨some input, some details⟩ models nextId = .error .forbidden := by
  unfold post_project
  have hr : centralRefused db details.createdBy = true := by
    unfold centralRefused
    rw [hcb]
    simp [hne, hcreator, hrole, hlvl]
  dsimp only
  rw [hr]
  simp

/-- Witness for C5 at a concrete input: Carl's request is refused even with
an empty registry and a would-be-failing scorer available. -/
theorem c5_witness :
    post_project dbPost ⟨some okInput, some detailsCarl⟩ [] 7 = .error .forbidden ∧
    post_project dbPost ⟨some okInput, some detailsCarl⟩ [badModel] 7 =
      .error .forbidden :=
  ⟨c5_central_admin_creation_refused dbPost okInput detailsCarl [] 7
      "carl@x.com" centralCarl rfl (by decide) (by decide) rfl rfl,
   c5_central_admin_creation_refused dbPost okInput detailsCarl [badModel] 7
      "carl@x.com" centralCarl rfl (by decide) (by decide) rfl rfl⟩

/-! ## C9 — creation by an unknown creator email -/

/-- C9: when the creator email of a creation request matches no stored
identity, the central-admin guard never fires (the request is not refused
with `Forbidden`), and if the creation succeeds the saved proposal's status
is `pending`, exactly as for an employee creator. -/
theorem c9_unknown_creator_pending (db : DB) (input : InputData)
    (details : ProjDetails) (models : List RegEntry) (nextId : Nat) (cb : String)
    (hcb : details.createdBy = some cb)
    (hunknown : findUser db cb = none) :
    post_project db ⟨some input, some details⟩ models nextId ≠ .error .forbidden ∧
    (∀ db' p, post_project db ⟨some input, some details⟩ models nextId = .ok (db', p) →
      p.status = "pending") := by
  have hr : centralRefused db details.createdBy = false := by
    unfold centralRefused
    simp only [hcb, hunknown]
    simp
  constructor
  · intro h
    unfold post_project at h
    dsimp only at h
    rw [hr] at h
    simp only [Bool.false_eq_true, if_false] at h
    cases hemp : models.isEmpty with
    | true => rw [hemp] at h; cases h
    | false =>
      rw [hemp] at h
      simp only [Bool.false_eq_true, if_false] at h
      cases hscore : scoreAll input models with
      | error e =>
        rw [hscore] at h
        cases h
        exact scoreModels_ne_forbidden input models [] hscore
      | ok preds =>
        simp only [hscore] at h
        split at h
        · cases h
        · simp at h
  · intro db' p h
    obtain ⟨cb', hcb', hstat⟩ :=
      post_project_ok_status db input details models nextId db' p h
    rw [hcb] at hcb'
    cases hcb'
    rw [hstat]
    unfold initialStatus
    rw [hunknown]

/-- Witness for C9 at a concrete input: the unknown creator's request is not
refused and its saved row is `pending`. -/
theorem c9_witness :
    post_project dbPost ⟨some okInput, some detailsGhost⟩ [okModel] 9 ≠
      .error .forbidden ∧
    projGhostNew.status = "pending" := by
  have h := c9_unknown_creator_pending dbPost okInput detailsGhost [okModel] 9
    "ghost@x.com" rfl (by decide)
  refine ⟨h.1, h.2 { dbPost with projects := [projGhostNew] } projGhostNew ?_⟩
  decide

/-! ## C8 — the listing predicate -/

/-- C8 counterexample: by the claim, state admin Uma (home state
`"Unknown"`) should see Bob's pending Atlantis project, since the project's
resolved state equals her home state and its status is `pending`; the code
returns the empty list (no city maps to `"Unknown"`, so her view collapses
to "own projects only").  The conjuncts record both the empty answer and
that the claim's predicate selects the stored project. -/
theorem c8_counterexample :
    get_projects dbC8 "uma@x.com" = .ok [] ∧
    projPendingAtlantis ∈ dbC8.projects ∧
    get_state_from_city projPendingAtlantis.location = "Unknown" ∧
    stAdminUnknown.admin_level = some "state" ∧
    stAdminUnknown.state = some "Unknown" ∧
    projPendingAtlantis.status = "pending" ∧
    projPendingAtlantis.created_by_email ≠ "uma@x.com" := by decide

/-- C8 (amended): the list operation returns exactly the proposals selected
by the caller's role-dependent predicate, with the state-admin case read
through the city map rather than the resolver: an employee sees the
proposals they created; a state admin whose home state has at least one
mapped city sees the union of pending proposals located in one of those
cities and their own proposals, while a state admin whose home state is not
a mapped state value (for example the literal `"Unknown"`, or a null home
state) sees only their own proposals; a central admin sees the proposals
with status `pending central approval`, ordered by creation timestamp
descending; an admin with any other scope sees nothing. -/
theorem c8_amended_listing (db : DB) (email : String) (u : User) (l : List Project)
    (hu : findUser db email = some u)
    (hl : get_projects db email = .ok l) :
    (u.role ≠ "admin" → ∀ p, p ∈ l ↔ p ∈ db.projects ∧ p.created_by_email = email) ∧
    (u.role = "admin" → u.admin_level = some "state" →
      (citiesInState u.state = [] →
        ∀ p, p ∈ l ↔ p ∈ db.projects ∧ p.created_by_email = email) ∧
      (citiesInState u.state ≠ [] →
        ∀ p, p ∈ l ↔ p ∈ db.projects ∧
          ((p.location ∈ citiesInState u.state ∧ p.status = "pending") ∨
            p.created_by_email = email))) ∧
    (u.role = "admin" → u.admin_level = some "central" →
      (∀ p, p ∈ l ↔ p ∈ db.projects ∧ p.status = "pending central approval") ∧
      List.Sorted createdDesc l) ∧
    (u.role = "admin" → u.admin_level ≠ some "state" →
      u.admin_level ≠ some "central" → l = []) := by
  unfold get_projects at hl
  simp only [hu] at hl
  refine ⟨?_, ?_, ?_, ?_⟩
  · intro hrole
    simp only [hrole, if_false] at hl
    cases hl
    intro p
    simp [List.mem_filter]
  · intro hrole hlvl
    simp only [hrole, hlvl, if_true, if_pos rfl] at hl
    constructor
    · intro hcit
      rw [hcit] at hl
      simp only [List.isEmpty_nil, if_true] at hl
      cases hl
      intro p
      simp [List.mem_filter]
    · intro hcit
      have hf : (citiesInState u.state).isEmpty = false := by
        cases hje : (citiesInState u.state).isEmpty
        · rfl
        · exact absurd (List.isEmpty_iff.mp hje) hcit
      simp only [hf, Bool.false_eq_true, if_false] at hl
      cases hl
      intro p
      simp [List.mem_filter]
  · intro hrole hlvl
    have hne : u.admin_level ≠ some "state" := by rw [hlvl]; decide
    simp only [hrole, hlvl, if_true, hne, if_false, if_pos rfl] at hl
    cases hl
    constructor
    · intro p
      rw [List.Perm.mem_iff (List.perm_insertionSort createdDesc _)]
      simp [List.mem_filter]
    · exact List.sorted_insertionSort createdDesc _
  · intro hrole h1 h2
    simp only [hrole, h1, h2, if_true, if_false] at hl
    cases hl
    rfl

/-- Witness for the amended C8 at concrete inputs: the central admin's view
contains exactly the pending-central-approval project (sorted), and the
employee's view contains their own project. -/
theorem c8_amended_witness :
    projPCAByAsha ∈ ([projPCAByAsha] : List Project) ∧
    List.Sorted createdDesc [projPCAByAsha] ∧
    projPendingBengaluru ∈ ([projPendingBengaluru] : List Project) := by
  have hc := c8_amended_listing dbC3 "carl@x.com" centralCarl [projPCAByAsha]
    (by decide) (by decide)
  have hb := c8_amended_listing dbC3 "bob@x.com" empBob [projPendingBengaluru]
    (by decide) (by decide)
  have hcc := hc.2.2.1 rfl rfl
  refine ⟨(hcc.1 projPCAByAsha).mpr ⟨by decide, rfl⟩, hcc.2, ?_⟩
  exact (hb.1 (by decide) projPendingBengaluru).mpr ⟨by decide, rfl⟩
